import Mathlib

/-!
Shallow embedding of the automation-hat crate (src/lights.rs, src/digital_output.rs,
src/digital_input.rs, src/relay.rs, src/analog_input.rs).

Rust `f64` values are modelled by `F`: either NaN or an exact rational. All
concrete inputs used in theorems below are dyadic rationals that are exactly
representable in `f64`, so the model agrees with the machine arithmetic there.
A call that executes `.unwrap()` on a failed transport result panics; this is
modelled by the `Outcome.panicked` alternative, distinct from a returned error.
-/

namespace AutomationHat

/-- Model of a Rust `f64`: NaN or an exact rational value. -/
inductive F where
  | nan : F
  | val : ℚ → F
deriving DecidableEq, Repr

/-- Rust `<` on `f64`: any comparison with NaN is false. -/
def F.ltb : F → F → Bool
  | F.val a, F.val b => decide (a < b)
  | _, _ => false

/-- Rust `==` on `f64`: numeric equality; any comparison with NaN is false. -/
def F.eqb : F → F → Bool
  | F.val a, F.val b => decide (a = b)
  | _, _ => false

/-- Rust `*` on `f64` (exact; NaN propagates). -/
def F.mul : F → F → F
  | F.val a, F.val b => F.val (a * b)
  | _, _ => F.nan

/-- Rust `/` on `f64` (exact; NaN propagates; divisors in this file are nonzero). -/
def F.div : F → F → F
  | F.val a, F.val b => F.val (a / b)
  | _, _ => F.nan

/-- Rust `as u8` cast from `f64`: NaN goes to 0, otherwise saturating
truncation toward zero into 0..255. -/
def F.toU8 : F → Nat
  | F.nan => 0
  | F.val q => if q < 0 then 0 else min 255 (Int.toNat ⌊q⌋)

/-- The shared `LED_STATE` map (`HashMap<u8, u8>` in lights.rs): channel ↦ byte,
modelled as an association list with distinct keys. -/
abbrev ChannelState := List (Nat × Nat)

/-- `HashMap::get`-style lookup. -/
def lookupState (s : ChannelState) (c : Nat) : Option Nat :=
  (s.find? (fun e => e.1 == c)).map Prod.snd

/-- `HashMap::insert`: the new binding replaces any previous binding of the key. -/
def insertState (s : ChannelState) (c v : Nat) : ChannelState :=
  (c, v) :: s.filter (fun e => !(e.1 == c))

/-- One SN3218 hardware transaction: `enable_leds(mask)` or `output(values)`. -/
inductive Transaction where
  | enable : Nat → Transaction
  | output : List Nat → Transaction
deriving DecidableEq, Repr

/-- The shared LED-driver world: the `LED_STATE` map, the ordered log of
hardware transactions, and flags that make the next `enable_leds` / `output`
transport call fail (the code unwraps both, so a failure panics). -/
structure Sys where
  ledState : ChannelState
  log : List Transaction
  enableFail : Bool
  outputFail : Bool
deriving DecidableEq, Repr

/-- Result of a call: a returned `Ok`, a returned `Err`, or a panic. -/
inductive Outcome (α : Type) where
  | ok : α → Outcome α
  | err : String → Outcome α
  | panicked : Outcome α
deriving DecidableEq, Repr

/-- Whether the call returned an `Err` value (a panic is not a returned error). -/
def Outcome.isErr : Outcome α → Bool
  | Outcome.err _ => true
  | _ => false

/-- One iteration of the `for (channel, brightness) in led_state.iter()` loop in
`set_brightness` (lights.rs lines 119-126): write the byte into the 18-slot
buffer and set the mask bit when the byte is nonzero, skipping channels ≥ 18. -/
def buildStep (acc : List Nat × Nat) (e : Nat × Nat) : List Nat × Nat :=
  if e.1 < 18 then
    (acc.1.set e.1 e.2, if 0 < e.2 then acc.2 ||| (1 <<< e.1) else acc.2)
  else acc

/-- The full loop: from the current `LED_STATE`, the 18-byte `values` buffer and
the `led_mask` word. -/
def buildBuffer (s : ChannelState) : List Nat × Nat :=
  s.foldl buildStep (List.replicate 18 0, 0)

/-- The `LED` struct (lights.rs): channel, cached brightness, max brightness. -/
structure LED where
  channel : Nat
  brightness : F
  max_brightness : Nat
deriving DecidableEq, Repr

/-- `LED::new`: brightness 0.0, max brightness 255. -/
def LED.new (channel : Nat) : LED :=
  ⟨channel, F.val 0, 255⟩

/-- `LED::set_brightness` (lights.rs lines 101-133). Validation first; then the
cached field and the shared map are updated; then the buffer and mask are
recomputed from the whole map; then `enable_leds` and `output` are issued, each
through `.unwrap()`, so a transport failure panics. -/
def LED.set_brightness (led : LED) (sys : Sys) (b : F) :
    Outcome Unit × LED × Sys :=
  if b.ltb (F.val 0) || (F.val 1).ltb b then
    (Outcome.err "Brightness must be between 0.0 and 1.0", led, sys)
  else
    let led2 : LED := ⟨led.channel, b, led.max_brightness⟩
    let value := (b.mul (F.val (led.max_brightness : ℚ))).toU8
    let st := insertState sys.ledState led2.channel value
    let vm := buildBuffer st
    if sys.enableFail then
      (Outcome.panicked, led2, ⟨st, sys.log, sys.enableFail, sys.outputFail⟩)
    else
      let log1 := sys.log ++ [Transaction.enable vm.2]
      if sys.outputFail then
        (Outcome.panicked, led2, ⟨st, log1, sys.enableFail, sys.outputFail⟩)
      else
        (Outcome.ok (), led2,
          ⟨st, log1 ++ [Transaction.output vm.1], sys.enableFail, sys.outputFail⟩)

/-- `LED::on`: full brightness. -/
def LED.on (led : LED) (sys : Sys) : Outcome Unit × LED × Sys :=
  led.set_brightness sys (F.val 1)

/-- `LED::off`: brightness 0.0. -/
def LED.off (led : LED) (sys : Sys) : Outcome Unit × LED × Sys :=
  led.set_brightness sys (F.val 0)

/-- `LED::toggle`: on when the cached brightness compares equal to 0.0, else off. -/
def LED.toggle (led : LED) (sys : Sys) : Outcome Unit × LED × Sys :=
  if led.brightness.eqb (F.val 0) then led.on sys else led.off sys

/-- `LED::set`: alias for `set_brightness`. -/
def LED.set (led : LED) (sys : Sys) (b : F) : Outcome Unit × LED × Sys :=
  led.set_brightness sys b

/-- `if self.x.is_some() { let _ = self.x.as_mut().unwrap().set(b); }` as used by
relay.rs: no LED bound means no call at all. The outcome is reported so the
caller can model `let _ =` (a returned `Err` is discarded, a panic is not). -/
def setOptLED : Option LED → Sys → F → Outcome Unit × Option LED × Sys
  | none, s, _ => (Outcome.ok (), none, s)
  | some led, s, b =>
    let r := led.set s b
    (r.1, some r.2.1, r.2.2)

/-- World of a GPIO-backed wrapper: the shared LED world, the physical pin
level (true = high), and a flag making the next pin transport call fail. -/
structure PinSys where
  ledSys : Sys
  pin : Bool
  pinFail : Bool
deriving DecidableEq, Repr

/-- The `DigitalOutput` struct (digital_output.rs): optional indicator LED,
auto-light flag, last logical value. The GPIO pin lives in `PinSys`. -/
structure DigitalOutput where
  led : Option LED
  auto_light : Bool
  value : Bool
deriving DecidableEq, Repr

/-- The tail of `DigitalOutput::write` (digital_output.rs lines 106-115):
`pin.set_state`, recording `value` only on success. -/
def DigitalOutput.writePin (d : DigitalOutput) (sys : PinSys) (onState : Bool) :
    Outcome Unit × DigitalOutput × PinSys :=
  if sys.pinFail then
    (Outcome.err "Unable to set pin state", d, sys)
  else
    (Outcome.ok (), ⟨d.led, d.auto_light, onState⟩, ⟨sys.ledSys, onState, sys.pinFail⟩)

/-- `DigitalOutput::write` (digital_output.rs lines 94-116): with auto-light and
a bound LED, the indicator is set to 1.0/0.0 first; a returned indicator error
aborts before the pin; only then is the pin driven. -/
def DigitalOutput.write (d : DigitalOutput) (sys : PinSys) (onState : Bool) :
    Outcome Unit × DigitalOutput × PinSys :=
  match d.auto_light, d.led with
  | true, some led =>
    let r := led.set sys.ledSys (F.val (if onState then 1 else 0))
    let d1 : DigitalOutput := ⟨some r.2.1, d.auto_light, d.value⟩
    let sys1 : PinSys := ⟨r.2.2, sys.pin, sys.pinFail⟩
    match r.1 with
    | Outcome.ok _ => d1.writePin sys1 onState
    | Outcome.err e => (Outcome.err ("Unable to set LED state: " ++ e), d1, sys1)
    | Outcome.panicked => (Outcome.panicked, d1, sys1)
  | _, _ => d.writePin sys onState

/-- The `DigitalInput` struct (digital_input.rs): optional indicator LED and
auto-light flag. The GPIO pin lives in `PinSys`. -/
structure DigitalInput where
  led : Option LED
  auto_light : Bool
deriving DecidableEq, Repr

/-- `DigitalInput::read` (digital_input.rs lines 84-95): a failed pin read
returns its error at once (`?`); otherwise, with auto-light and a bound LED,
the indicator is set to 1.0/0.0 — a returned indicator error is only printed
and the read still returns `Ok(value)`, while a panic inside the indicator
update propagates. -/
def DigitalInput.read (d : DigitalInput) (sys : PinSys) :
    Outcome Bool × DigitalInput × PinSys :=
  if sys.pinFail then
    (Outcome.err "pin read failed", d, sys)
  else
    let value := sys.pin
    match d.auto_light, d.led with
    | true, some led =>
      let r := led.set_brightness sys.ledSys (F.val (if value then 1 else 0))
      let d1 : DigitalInput := ⟨some r.2.1, d.auto_light⟩
      let sys1 : PinSys := ⟨r.2.2, sys.pin, sys.pinFail⟩
      match r.1 with
      | Outcome.panicked => (Outcome.panicked, d1, sys1)
      | _ => (Outcome.ok value, d1, sys1)
    | _, _ => (Outcome.ok value, d, sys)

/-- The `Relay` struct (relay.rs): NO and NC indicator LEDs, auto-light flag,
last logical value. The GPIO pin lives in `PinSys`. -/
structure Relay where
  no_led : Option LED
  nc_led : Option LED
  auto_light : Bool
  value : Bool
deriving DecidableEq, Repr

/-- The tail of `Relay::write` (relay.rs lines 126-134): `pin.set_state`,
then `value` is recorded (only reached on pin success). -/
def Relay.writePin (rl : Relay) (sys : PinSys) (isOpen : Bool) :
    Outcome Unit × Relay × PinSys :=
  if sys.pinFail then
    (Outcome.err "Unable to set value", rl, sys)
  else
    (Outcome.ok (), ⟨rl.no_led, rl.nc_led, rl.auto_light, isOpen⟩,
     ⟨sys.ledSys, isOpen, sys.pinFail⟩)

/-- `Relay::write` (relay.rs lines 109-135): with auto-light, the NO indicator
is set to 1.0/0.0 and the NC indicator to the inverse, each through `let _ =`
(returned errors discarded; a panic inside `set` still aborts everything);
then the pin is driven high iff `open` and the value recorded on success. -/
def Relay.write (rl : Relay) (sys : PinSys) (isOpen : Bool) :
    Outcome Unit × Relay × PinSys :=
  if rl.auto_light then
    let r1 := setOptLED rl.no_led sys.ledSys (F.val (if isOpen then 1 else 0))
    let rl1 : Relay := ⟨r1.2.1, rl.nc_led, rl.auto_light, rl.value⟩
    let sys1 : PinSys := ⟨r1.2.2, sys.pin, sys.pinFail⟩
    match r1.1 with
    | Outcome.panicked => (Outcome.panicked, rl1, sys1)
    | _ =>
      let r2 := setOptLED rl1.nc_led sys1.ledSys (F.val (if isOpen then 0 else 1))
      let rl2 : Relay := ⟨rl1.no_led, r2.2.1, rl.auto_light, rl.value⟩
      let sys2 : PinSys := ⟨r2.2.2, sys.pin, sys.pinFail⟩
      match r2.1 with
      | Outcome.panicked => (Outcome.panicked, rl2, sys2)
      | _ => rl2.writePin sys2 isOpen
  else rl.writePin sys isOpen

/-- The `AnalogInput` struct (analog_input.rs): optional indicator LED, ADC
channel, last normalized value, calibration maximum. -/
structure AnalogInput where
  led : Option LED
  channel : Nat
  value : F
  max_value : F
deriving DecidableEq, Repr

/-- `AnalogInput::new`: value 0.0, `max_value` 25.85. -/
def AnalogInput.new (led : Option LED) (channel : Nat) : AnalogInput :=
  ⟨led, channel, F.val 0, F.val (2585 / 100 : ℚ)⟩

/-- World of an analog input: the shared LED world, the raw reading the ADC
returns, and flags making `select_channel` fail (mapped to a returned error)
or `driver.read()` fail (unwrapped, so a panic). -/
structure AdcSys where
  ledSys : Sys
  raw : Int
  selectFail : Bool
  readFail : Bool
deriving DecidableEq, Repr

/-- `AnalogInput::read` (analog_input.rs lines 71-101): channels other than
0-3 return `Err("Invalid channel")`; a `select_channel` failure is mapped into
a returned error; `driver.read()` is unwrapped (panic on failure); the value is
`((raw / 10.0) * 2.048) / max_value`, stored, and — when an LED is bound —
forwarded to `set_brightness`, whose returned error fails the read. -/
def AnalogInput.read (a : AnalogInput) (sys : AdcSys) :
    Outcome F × AnalogInput × AdcSys :=
  if 4 ≤ a.channel then
    (Outcome.err "Invalid channel", a, sys)
  else if sys.selectFail then
    (Outcome.err "Failed to read value from channel", a, sys)
  else if sys.readFail then
    (Outcome.panicked, a, sys)
  else
    let v : F := ((F.val (sys.raw : ℚ)).div (F.val 10)).mul (F.val (2048 / 1000 : ℚ)) |>.div a.max_value
    match a.led with
    | some led =>
      let r := led.set_brightness sys.ledSys v
      let a1 : AnalogInput := ⟨some r.2.1, a.channel, v, a.max_value⟩
      let sys1 : AdcSys := ⟨r.2.2, sys.raw, sys.selectFail, sys.readFail⟩
      match r.1 with
      | Outcome.ok _ => (Outcome.ok v, a1, sys1)
      | Outcome.err e => (Outcome.err ("Failed to update LED: " ++ e), a1, sys1)
      | Outcome.panicked => (Outcome.panicked, a1, sys1)
    | none => (Outcome.ok v, ⟨a.led, a.channel, v, a.max_value⟩, sys)

/-! ## Spec-side description of the flush, for claim C1

The spec says each flush sends an 18-byte buffer in which each channel holds
the byte of its last successful set (0 if never set), together with a mask
whose bit k is set iff byte k is nonzero, as one enable transaction followed
by one output transaction. The following definitions state that in the spec's
own terms, to be compared with the code's `runCalls`. -/

/-- The fresh world: empty `LED_STATE`, empty transaction log, healthy bus. -/
def sys0 : Sys := ⟨[], [], false, false⟩

/-- The brightness guard of `set_brightness` passes (the call is not rejected). -/
def guardOk (b : F) : Bool := !(b.ltb (F.val 0) || (F.val 1).ltb b)

/-- One `set_brightness` call on a handle for channel `c.1`, keeping only the
shared world (the handle's cache does not influence later flushes). -/
def stepCall (sys : Sys) (c : Nat × F) : Sys :=
  ((LED.new c.1).set_brightness sys c.2).2.2

/-- A whole sequence of `set_brightness` calls. -/
def runCalls (calls : List (Nat × F)) (sys : Sys) : Sys :=
  calls.foldl stepCall sys

/-- Spec: the byte channel `k` should hold after `calls` — the byte of the last
set on `k`, if any. -/
def specByte (calls : List (Nat × F)) (k : Nat) : Option Nat :=
  ((calls.filter (fun c => c.1 == k)).getLast?).map
    (fun c => (c.2.mul (F.val 255)).toU8)

/-- Spec: the full 18-byte output buffer after `calls`; never-set channels are 0. -/
def specValues (calls : List (Nat × F)) : List Nat :=
  (List.range 18).map (fun k => (specByte calls k).getD 0)

/-- Spec: the enable mask after `calls`: bit k set iff byte k is nonzero. -/
def specMask (calls : List (Nat × F)) : Nat :=
  (List.range 18).foldl
    (fun m k => if (specByte calls k).getD 0 ≠ 0 then m ||| (1 <<< k) else m) 0

/-- Spec: the transaction log produced by the calls after `done`: for each call,
one enable transaction then one output transaction, computed from the whole
history up to that call. -/
def specLogAux (done : List (Nat × F)) : List (Nat × F) → List Transaction
  | [] => []
  | c :: rest =>
    Transaction.enable (specMask (done ++ [c])) ::
    Transaction.output (specValues (done ++ [c])) ::
    specLogAux (done ++ [c]) rest

/-- Spec: the whole transaction log of a call sequence from the fresh world. -/
def specLog (calls : List (Nat × F)) : List Transaction := specLogAux [] calls

/-! ## Lemmas about the channel-state map -/

lemma find_filter_ne (s : ChannelState) (c k : Nat) (hk : k ≠ c) :
    (s.filter (fun e => !(e.1 == c))).find? (fun e => e.1 == k) =
      s.find? (fun e => e.1 == k) := by
  induction s with
  | nil => rfl
  | cons e t ih =>
    by_cases hc : e.1 = c
    · rw [List.filter_cons_of_neg (by simp [hc])]
      rw [List.find?_cons_of_neg _ (by simp [hc, Ne.symm hk])]
      exact ih
    · rw [List.filter_cons_of_pos (by simp [hc])]
      by_cases hek : e.1 = k
      · rw [List.find?_cons_of_pos _ (by simp [hek]),
          List.find?_cons_of_pos _ (by simp [hek])]
      · rw [List.find?_cons_of_neg _ (by simp [hek]),
          List.find?_cons_of_neg _ (by simp [hek])]
        exact ih

lemma lookupState_insert (s : ChannelState) (c v k : Nat) :
    lookupState (insertState s c v) k = if k = c then some v else lookupState s k := by
  by_cases h : k = c
  · subst h
    simp [lookupState, insertState, List.find?_cons_of_pos]
  · rw [if_neg h]
    unfold lookupState insertState
    rw [List.find?_cons_of_neg _ (by simp [Ne.symm h]), find_filter_ne s c k h]

lemma nodupKeys_insert (s : ChannelState) (c v : Nat)
    (h : (s.map Prod.fst).Nodup) : ((insertState s c v).map Prod.fst).Nodup := by
  unfold insertState
  rw [List.map_cons, List.nodup_cons]
  refine ⟨?_, ?_⟩
  · intro hc
    obtain ⟨e, he, hec⟩ := List.mem_map.mp hc
    have := (List.mem_filter.mp he).2
    simp [hec] at this
  · exact List.Nodup.sublist (List.Sublist.map Prod.fst (List.filter_sublist s)) h

lemma lookupState_eq_none (s : ChannelState) (k : Nat)
    (h : k ∉ s.map Prod.fst) : lookupState s k = none := by
  unfold lookupState
  rw [List.find?_eq_none.mpr]
  · rfl
  · intro e he hek
    exact h (List.mem_map.mpr ⟨e, he, by simpa using hek⟩)

/-! ## Lemmas about specByte -/

lemma specByte_nil (k : Nat) : specByte [] k = none := rfl

lemma specByte_append (calls : List (Nat × F)) (c : Nat × F) (k : Nat) :
    specByte (calls ++ [c]) k =
      if k = c.1 then some ((c.2.mul (F.val 255)).toU8) else specByte calls k := by
  unfold specByte
  rw [List.filter_append]
  by_cases h : k = c.1
  · rw [if_pos h]
    rw [show (List.filter (fun x => x.1 == k) [c]) = [c] by simp [h]]
    rw [List.getLast?_concat]
    rfl
  · rw [if_neg h]
    rw [show (List.filter (fun x => x.1 == k) [c]) = [] by simp [Ne.symm h]]
    rw [List.append_nil]

/-! ## Bit-level helpers -/

lemma testBit_one_shiftLeft (j k : Nat) : (1 <<< j).testBit k = decide (k = j) := by
  rw [Nat.shiftLeft_eq, one_mul, Nat.testBit_two_pow]
  simp [eq_comm]

lemma lookupState_cons_self (e : Nat × Nat) (t : ChannelState) (k : Nat)
    (h : e.1 = k) : lookupState (e :: t) k = some e.2 := by
  unfold lookupState
  rw [List.find?_cons_of_pos _ (by simp [h])]
  rfl

lemma lookupState_cons_ne (e : Nat × Nat) (t : ChannelState) (k : Nat)
    (h : e.1 ≠ k) : lookupState (e :: t) k = lookupState t k := by
  unfold lookupState
  rw [List.find?_cons_of_neg _ (by simp [h])]

/-- Characterization of the buffer-and-mask loop of `set_brightness` over a
state whose keys are distinct: the buffer keeps its 18 slots, slot `k` holds
the mapped byte (or the accumulator's), and mask bit `k` records whether the
mapped byte is positive. -/
lemma buildFold_spec (entries : List (Nat × Nat)) : ∀ (acc : List Nat × Nat),
    acc.1.length = 18 →
    (entries.map Prod.fst).Nodup →
    (∀ j, 18 ≤ j → acc.2.testBit j = false) →
    (∀ e ∈ entries, acc.2.testBit e.1 = false) →
    (entries.foldl buildStep acc).1.length = 18 ∧
    (∀ k, k < 18 →
      (entries.foldl buildStep acc).1.getD k 0 =
        (lookupState entries k).getD (acc.1.getD k 0)) ∧
    (∀ k, (entries.foldl buildStep acc).2.testBit k =
        (if k < 18 then
          ((lookupState entries k).map (fun v => decide (0 < v))).getD
            (acc.2.testBit k)
         else false)) := by
  induction entries with
  | nil =>
    intro acc hlen _ hacc18 _
    refine ⟨hlen, ?_, ?_⟩
    · intro k _
      rfl
    · intro k
      by_cases hk : k < 18
      · rw [if_pos hk]
        rfl
      · rw [if_neg hk]
        exact hacc18 k (le_of_not_lt hk)
  | cons e t ih =>
    intro acc hlen hnd hacc18 haccKeys
    rw [List.map_cons, List.nodup_cons] at hnd
    obtain ⟨het, hndt⟩ := hnd
    by_cases he18 : e.1 < 18
    · have hstep : buildStep acc e =
          (acc.1.set e.1 e.2, if 0 < e.2 then acc.2 ||| (1 <<< e.1) else acc.2) := by
        simp [buildStep, he18]
      have hlen1 : (buildStep acc e).1.length = 18 := by
        rw [hstep]
        simpa using hlen
      have hmask1 : ∀ k, (buildStep acc e).2.testBit k =
          (acc.2.testBit k || (decide (0 < e.2) && decide (k = e.1))) := by
        intro k
        rw [hstep]
        show (if 0 < e.2 then acc.2 ||| (1 <<< e.1) else acc.2).testBit k = _
        by_cases hv : 0 < e.2
        · rw [if_pos hv, Nat.testBit_or, testBit_one_shiftLeft]
          simp [hv]
        · rw [if_neg hv]
          simp [hv]
      have hacc18' : ∀ j, 18 ≤ j → (buildStep acc e).2.testBit j = false := by
        intro j hj
        rw [hmask1 j, hacc18 j hj]
        have hne : j ≠ e.1 := by omega
        simp [hne]
      have haccKeys' : ∀ x ∈ t, (buildStep acc e).2.testBit x.1 = false := by
        intro x hx
        rw [hmask1 x.1, haccKeys x (List.mem_cons_of_mem _ hx)]
        have hne : x.1 ≠ e.1 := by
          intro hxe
          exact het (List.mem_map.mpr ⟨x, hx, hxe⟩)
        simp [hne]
      obtain ⟨L, V, M⟩ := ih (buildStep acc e) hlen1 hndt hacc18' haccKeys'
      rw [List.foldl_cons]
      refine ⟨L, ?_, ?_⟩
      · intro k hk
        by_cases hek : e.1 = k
        · subst hek
          rw [lookupState_cons_self e t e.1 rfl, V e.1 hk,
            lookupState_eq_none t e.1 het]
          show (buildStep acc e).1.getD e.1 0 = e.2
          rw [hstep]
          show (acc.1.set e.1 e.2).getD e.1 0 = e.2
          rw [List.getD_eq_getElem?_getD,
            List.getElem?_set_self (by rw [hlen]; exact hk)]
          rfl
        · rw [lookupState_cons_ne e t k hek, V k hk]
          cases hcase : lookupState t k with
          | some v => rfl
          | none =>
            show (buildStep acc e).1.getD k 0 = acc.1.getD k 0
            rw [hstep]
            show (acc.1.set e.1 e.2).getD k 0 = acc.1.getD k 0
            rw [List.getD_eq_getElem?_getD, List.getElem?_set_ne hek,
              List.getD_eq_getElem?_getD]
      · intro k
        rw [M k]
        by_cases hk : k < 18
        · rw [if_pos hk, if_pos hk]
          by_cases hek : e.1 = k
          · subst hek
            rw [lookupState_cons_self e t e.1 rfl,
              lookupState_eq_none t e.1 het]
            show (buildStep acc e).2.testBit e.1 = decide (0 < e.2)
            rw [hmask1 e.1, haccKeys e (List.mem_cons_self _ _)]
            simp
          · rw [lookupState_cons_ne e t k hek]
            cases hcase : lookupState t k with
            | some v => rfl
            | none =>
              show (buildStep acc e).2.testBit k = acc.2.testBit k
              rw [hmask1 k]
              have hne : k ≠ e.1 := fun h => hek h.symm
              simp [hne]
        · rw [if_neg hk, if_neg hk]
    · have hstep : buildStep acc e = acc := by
        simp [buildStep, he18]
      have haccKeys' : ∀ x ∈ t, (buildStep acc e).2.testBit x.1 = false := by
        intro x hx
        rw [hstep]
        exact haccKeys x (List.mem_cons_of_mem _ hx)
      obtain ⟨L, V, M⟩ := ih (buildStep acc e) (by rw [hstep]; exact hlen) hndt
        (by rw [hstep]; exact hacc18) haccKeys'
      rw [List.foldl_cons]
      refine ⟨L, ?_, ?_⟩
      · intro k hk
        have hekk : e.1 ≠ k := by omega
        rw [lookupState_cons_ne e t k hekk, V k hk, hstep]
      · intro k
        rw [M k]
        by_cases hk : k < 18
        · rw [if_pos hk, if_pos hk]
          have hekk : e.1 ≠ k := by omega
          rw [lookupState_cons_ne e t k hekk, hstep]
        · rw [if_neg hk, if_neg hk]

/-- Bits of a fold that sets bit `j` for each listed `j` satisfying `p`. -/
lemma maskFold_testBit (p : Nat → Prop) [DecidablePred p] (l : List Nat) :
    ∀ (acc : Nat), l.Nodup → (∀ j ∈ l, acc.testBit j = false) → ∀ k,
    (l.foldl (fun m j => if p j then m ||| (1 <<< j) else m) acc).testBit k =
      if k ∈ l then decide (p k) else acc.testBit k := by
  induction l with
  | nil =>
    intro acc _ _ k
    simp
  | cons j t ih =>
    intro acc hnd hacc k
    rw [List.nodup_cons] at hnd
    obtain ⟨hjt, hndt⟩ := hnd
    rw [List.foldl_cons]
    have hacc' : ∀ i ∈ t, (if p j then acc ||| (1 <<< j) else acc).testBit i = false := by
      intro i hi
      by_cases hf : p j
      · rw [if_pos hf, Nat.testBit_or, hacc i (List.mem_cons_of_mem _ hi),
          testBit_one_shiftLeft]
        have hne : i ≠ j := fun h => hjt (h ▸ hi)
        simp [hne]
      · rw [if_neg hf]
        exact hacc i (List.mem_cons_of_mem _ hi)
    rw [ih _ hndt hacc' k]
    by_cases hkt : k ∈ t
    · rw [if_pos hkt, if_pos (List.mem_cons_of_mem _ hkt)]
    · rw [if_neg hkt]
      by_cases hkj : k = j
      · subst hkj
        rw [if_pos (List.mem_cons_self _ _)]
        by_cases hf : p k
        · rw [if_pos hf, Nat.testBit_or, hacc k (List.mem_cons_self _ _),
            testBit_one_shiftLeft]
          simp [hf]
        · rw [if_neg hf, hacc k (List.mem_cons_self _ _)]
          simp [hf]
      · have hmem : k ∉ j :: t := by
          intro hm
          rcases List.mem_cons.mp hm with h | h
          · exact hkj h
          · exact hkt h
        rw [if_neg hmem]
        by_cases hf : p j
        · rw [if_pos hf, Nat.testBit_or, testBit_one_shiftLeft]
          simp [hkj]
        · rw [if_neg hf]

/-! ## The buffer and mask of a flush agree with the spec's description -/

lemma getD_replicate_zero (k : Nat) : (List.replicate 18 (0 : Nat)).getD k 0 = 0 := by
  rw [List.getD_eq_getElem?_getD]
  cases h : (List.replicate 18 (0 : Nat))[k]? with
  | none => rfl
  | some v =>
    have hv := (List.mem_replicate.mp (List.getElem?_mem h)).2
    rw [hv]
    rfl

lemma specValues_length (cs : List (Nat × F)) : (specValues cs).length = 18 := by
  simp [specValues]

lemma specValues_getD (cs : List (Nat × F)) (k : Nat) (hk : k < 18) :
    (specValues cs).getD k 0 = (specByte cs k).getD 0 := by
  unfold specValues
  rw [List.getD_eq_getElem (_) (0) (by simpa using hk), List.getElem_map,
    List.getElem_range]

lemma specMask_testBit (cs : List (Nat × F)) (k : Nat) :
    (specMask cs).testBit k =
      (decide (k < 18) && decide ((specValues cs).getD k 0 ≠ 0)) := by
  unfold specMask
  rw [maskFold_testBit (fun j => (specByte cs j).getD 0 ≠ 0) (List.range 18) 0
    (List.nodup_range 18) (fun j _ => Nat.zero_testBit j) k]
  by_cases hk : k < 18
  · rw [if_pos (List.mem_range.mpr hk), specValues_getD cs k hk]
    simp [hk]
  · rw [if_neg (fun h => hk (List.mem_range.mp h)), Nat.zero_testBit]
    simp [hk]

lemma buildBuffer_spec (st : ChannelState) (cs : List (Nat × F))
    (hst : ∀ k, lookupState st k = specByte cs k)
    (hnd : (st.map Prod.fst).Nodup) :
    buildBuffer st = (specValues cs, specMask cs) := by
  obtain ⟨L, V, M⟩ := buildFold_spec st (List.replicate 18 0, 0)
    (by simp) hnd (fun j _ => Nat.zero_testBit j) (fun e _ => Nat.zero_testBit e.1)
  unfold buildBuffer
  have h1 : (st.foldl buildStep (List.replicate 18 0, 0)).1 = specValues cs := by
    apply List.ext_getElem (by rw [L, specValues_length])
    intro n h1 h2
    have hn : n < 18 := by rw [L] at h1; exact h1
    rw [← List.getD_eq_getElem _ 0 h1, ← List.getD_eq_getElem _ 0 h2,
      V n hn, hst n, specValues_getD cs n hn]
    cases specByte cs n with
    | some v => rfl
    | none =>
      show (List.replicate 18 (0 : Nat)).getD n 0 = 0
      exact getD_replicate_zero n
  have h2 : (st.foldl buildStep (List.replicate 18 0, 0)).2 = specMask cs := by
    apply Nat.eq_of_testBit_eq
    intro i
    rw [M i, specMask_testBit cs i]
    by_cases hi : i < 18
    · rw [if_pos hi, hst i, specValues_getD cs i hi]
      cases specByte cs i with
      | some v =>
        show decide (0 < v) = (decide (i < 18) && decide (v ≠ 0))
        simp [hi, Nat.pos_iff_ne_zero]
      | none =>
        show (0 : Nat).testBit i = (decide (i < 18) && decide ((0:Nat) ≠ 0))
        simp [Nat.zero_testBit]
    · rw [if_neg hi]
      simp [hi]
  rw [← h1, ← h2]

/-! ## Unfolding a successful set_brightness call -/

lemma set_brightness_ok (led : LED) (sys : Sys) (b : F)
    (hg : guardOk b = true) (he : sys.enableFail = false)
    (ho : sys.outputFail = false) :
    led.set_brightness sys b =
      (Outcome.ok (), ⟨led.channel, b, led.max_brightness⟩,
       ⟨insertState sys.ledState led.channel
          ((b.mul (F.val (led.max_brightness : ℚ))).toU8),
        sys.log ++
          [Transaction.enable
             (buildBuffer (insertState sys.ledState led.channel
               ((b.mul (F.val (led.max_brightness : ℚ))).toU8))).2,
           Transaction.output
             (buildBuffer (insertState sys.ledState led.channel
               ((b.mul (F.val (led.max_brightness : ℚ))).toU8))).1],
        false, false⟩) := by
  have hg2 : (b.ltb (F.val 0) || (F.val 1).ltb b) = false := by
    simpa [guardOk] using hg
  simp [LED.set_brightness, hg2, he, ho]

lemma stepCall_eq (sys : Sys) (c : Nat × F)
    (hg : guardOk c.2 = true) (he : sys.enableFail = false)
    (ho : sys.outputFail = false) :
    stepCall sys c =
      ⟨insertState sys.ledState c.1 ((c.2.mul (F.val 255)).toU8),
       sys.log ++
         [Transaction.enable
            (buildBuffer (insertState sys.ledState c.1 ((c.2.mul (F.val 255)).toU8))).2,
          Transaction.output
            (buildBuffer (insertState sys.ledState c.1 ((c.2.mul (F.val 255)).toU8))).1],
       false, false⟩ := by
  unfold stepCall
  rw [set_brightness_ok (LED.new c.1) sys c.2 hg he ho]
  simp [LED.new]

/-! ## The whole run produces the spec's transaction log -/

lemma runCalls_log (rest : List (Nat × F)) : ∀ (done : List (Nat × F)) (sys : Sys),
    (∀ k, lookupState sys.ledState k = specByte done k) →
    (sys.ledState.map Prod.fst).Nodup →
    sys.enableFail = false → sys.outputFail = false →
    (∀ c ∈ rest, guardOk c.2 = true) →
    (runCalls rest sys).log = sys.log ++ specLogAux done rest := by
  induction rest with
  | nil =>
    intro done sys _ _ _ _ _
    simp [runCalls, specLogAux]
  | cons c rest ih =>
    intro done sys hst hnd he ho hv
    have hstep := stepCall_eq sys c (hv c (List.mem_cons_self _ _)) he ho
    have hstIns : ∀ k,
        lookupState (insertState sys.ledState c.1 ((c.2.mul (F.val 255)).toU8)) k =
          specByte (done ++ [c]) k := by
      intro k
      rw [lookupState_insert, specByte_append]
      by_cases hk : k = c.1
      · rw [if_pos hk, if_pos hk]
      · rw [if_neg hk, if_neg hk, hst k]
    have hndIns := nodupKeys_insert sys.ledState c.1 ((c.2.mul (F.val 255)).toU8) hnd
    have hbb := buildBuffer_spec _ (done ++ [c]) hstIns hndIns
    have hrun : runCalls (c :: rest) sys = runCalls rest (stepCall sys c) := by
      simp [runCalls]
    rw [hrun, ih (done ++ [c]) (stepCall sys c)
      (by rw [hstep]; exact hstIns)
      (by rw [hstep]; exact hndIns)
      (by rw [hstep]) (by rw [hstep])
      (fun x hx => hv x (List.mem_cons_of_mem _ hx))]
    rw [hstep]
    show (sys.log ++ _) ++ _ = _
    rw [hbb]
    show (sys.log ++ [Transaction.enable (specMask (done ++ [c])),
        Transaction.output (specValues (done ++ [c]))]) ++
        specLogAux (done ++ [c]) rest = sys.log ++ specLogAux done (c :: rest)
    rw [List.append_assoc]
    rfl

/-- Claim C1: over any sequence of successful `set_brightness` calls on handles with
channels in 0..17 sharing one driver and starting from a fresh world, the
transaction log is exactly, for each call, one enable transaction followed by
one output transaction, whose output buffer is the full 18-byte array holding
each previously-set channel's last-set byte (0 for never-set channels) and
whose mask has bit k set iff byte k is nonzero. -/
theorem c1_flush_reflects_state (calls : List (Nat × F))
    (hv : ∀ c ∈ calls, c.1 < 18 ∧ guardOk c.2 = true) :
    (runCalls calls sys0).log = specLog calls ∧
    ∀ i, i < calls.length →
      (specValues (calls.take (i + 1))).length = 18 ∧
      ∀ k, (specMask (calls.take (i + 1))).testBit k =
        (decide (k < 18) && decide ((specValues (calls.take (i + 1))).getD k 0 ≠ 0)) := by
  refine ⟨?_, ?_⟩
  · have h := runCalls_log calls [] sys0
      (fun k => rfl) List.nodup_nil rfl rfl (fun c hc => (hv c hc).2)
    simpa [sys0, specLog] using h
  · intro i _
    exact ⟨specValues_length _, fun k => specMask_testBit _ k⟩

/-- Witness for C1 at a concrete call sequence: channels 0, 5, 0 with
brightness 1.0, 0.5 and 0.25. -/
theorem c1_flush_reflects_state_witness :
    (runCalls [(0, F.val 1), (5, F.val (1/2)), (0, F.val (1/4))] sys0).log =
      specLog [(0, F.val 1), (5, F.val (1/2)), (0, F.val (1/4))] :=
  (c1_flush_reflects_state [(0, F.val 1), (5, F.val (1/2)), (0, F.val (1/4))]
    (by norm_num [guardOk, F.ltb])).1

/-! ## Helper facts about single calls -/

lemma guardOk_val (q : ℚ) (h0 : 0 ≤ q) (h1 : q ≤ 1) : guardOk (F.val q) = true := by
  simp [guardOk, F.ltb, not_lt.mpr h0, not_lt.mpr h1]

lemma guardOk_one : guardOk (F.val 1) = true :=
  guardOk_val 1 (by norm_num) (by norm_num)

lemma guardOk_zero : guardOk (F.val 0) = true :=
  guardOk_val 0 (by norm_num) (by norm_num)

lemma guardOk_nan : guardOk F.nan = true := rfl

/-- A rejected call: the error is returned with nothing touched. -/
lemma set_brightness_err (led : LED) (sys : Sys) (b : F)
    (hg : (b.ltb (F.val 0) || (F.val 1).ltb b) = true) :
    led.set_brightness sys b =
      (Outcome.err "Brightness must be between 0.0 and 1.0", led, sys) := by
  simp [LED.set_brightness, hg]

/-- A passing call on a world whose enable transport fails: the guard passes,
the cache and map are updated, then the unwrap on `enable_leds` panics with no
transaction logged. -/
lemma set_brightness_panic_enable (led : LED) (sys : Sys) (b : F)
    (hg : guardOk b = true) (he : sys.enableFail = true) :
    led.set_brightness sys b =
      (Outcome.panicked, ⟨led.channel, b, led.max_brightness⟩,
       ⟨insertState sys.ledState led.channel
          ((b.mul (F.val (led.max_brightness : ℚ))).toU8),
        sys.log, sys.enableFail, sys.outputFail⟩) := by
  have hg2 : (b.ltb (F.val 0) || (F.val 1).ltb b) = false := by
    simpa [guardOk] using hg
  simp [LED.set_brightness, hg2, he]

/-- A passing call on a world whose output transport fails: the enable
transaction is logged, then the unwrap on `output` panics. -/
lemma set_brightness_panic_output (led : LED) (sys : Sys) (b : F)
    (hg : guardOk b = true) (he : sys.enableFail = false)
    (ho : sys.outputFail = true) :
    (led.set_brightness sys b).1 = Outcome.panicked := by
  have hg2 : (b.ltb (F.val 0) || (F.val 1).ltb b) = false := by
    simpa [guardOk] using hg
  simp [LED.set_brightness, hg2, he, ho]

/-- Projections of a passing call on a healthy world. -/
lemma set_brightness_result (led : LED) (sys : Sys) (b : F)
    (hg : guardOk b = true) (he : sys.enableFail = false)
    (ho : sys.outputFail = false) :
    (led.set_brightness sys b).1 = Outcome.ok () ∧
    (led.set_brightness sys b).2.1 = ⟨led.channel, b, led.max_brightness⟩ ∧
    (led.set_brightness sys b).2.2.enableFail = false ∧
    (led.set_brightness sys b).2.2.outputFail = false := by
  rw [set_brightness_ok led sys b hg he ho]
  exact ⟨rfl, rfl, rfl, rfl⟩

/-- Claim C4: for every brightness outside [0.0, 1.0], `set_brightness` returns the
validation error and leaves the shared channel-state map, the handle's cached
brightness and the whole driver world (so also the transaction log) unchanged:
no hardware transaction is issued. -/
theorem c4_out_of_range_rejected (led : LED) (sys : Sys) (q : ℚ)
    (h : q < 0 ∨ 1 < q) :
    led.set_brightness sys (F.val q) =
      (Outcome.err "Brightness must be between 0.0 and 1.0", led, sys) := by
  apply set_brightness_err
  rcases h with h | h <;> simp [F.ltb, h]

/-- Witness for C4 at brightness 2.0 on a fresh world. -/
theorem c4_out_of_range_rejected_witness :
    (LED.new 3).set_brightness sys0 (F.val 2) =
      (Outcome.err "Brightness must be between 0.0 and 1.0", LED.new 3, sys0) :=
  c4_out_of_range_rejected (LED.new 3) sys0 2 (Or.inr (by norm_num))

/-- Claim C2 (code bug): when the LED transport fails during the enable or the
output transaction, `set_brightness(0.5)` panics through `.unwrap()` instead
of returning an error to its caller — contradicting the function's own doc
comment ("Returns an error if … communication with the LED driver fails").
The in-memory updates have indeed already happened and are not rolled back:
the cache holds 0.5 and the shared map holds byte 127 for the channel. -/
theorem c2_transport_failure_panics :
    ((LED.new 0).set_brightness ⟨[], [], true, false⟩ (F.val (1/2))).1 =
      Outcome.panicked ∧
    ((LED.new 0).set_brightness ⟨[], [], true, false⟩ (F.val (1/2))).1.isErr =
      false ∧
    ((LED.new 0).set_brightness ⟨[], [], true, false⟩ (F.val (1/2))).2.1.brightness =
      F.val (1/2) ∧
    lookupState
      ((LED.new 0).set_brightness ⟨[], [], true, false⟩ (F.val (1/2))).2.2.ledState 0 =
      some 127 ∧
    ((LED.new 0).set_brightness ⟨[], [], true, false⟩ (F.val (1/2))).2.2.log = [] ∧
    ((LED.new 0).set_brightness ⟨[], [], false, true⟩ (F.val (1/2))).1 =
      Outcome.panicked := by
  have hg : guardOk (F.val (1/2)) = true := guardOk_val _ (by norm_num) (by norm_num)
  have hfl : (⌊(1/2 : ℚ) * 255⌋ : ℤ) = 127 := by
    rw [Int.floor_eq_iff]
    norm_num
  rw [set_brightness_panic_enable (LED.new 0) ⟨[], [], true, false⟩ (F.val (1/2)) hg rfl]
  refine ⟨rfl, rfl, rfl, ?_, rfl, ?_⟩
  · show lookupState (insertState [] 0 ((F.val (1/2)).mul (F.val ((255 : Nat) : ℚ))).toU8) 0 = some 127
    rw [lookupState_insert]
    rw [if_pos rfl]
    have : ((F.val (1/2)).mul (F.val ((255 : Nat) : ℚ))).toU8 = 127 := by
      show (F.val ((1/2 : ℚ) * ((255 : Nat) : ℚ))).toU8 = 127
      rw [F.toU8]
      rw [if_neg (by push_cast; norm_num)]
      push_cast
      rw [hfl]
      rfl
    rw [this]
  · exact set_brightness_panic_output (LED.new 0) ⟨[], [], false, true⟩ (F.val (1/2)) hg rfl rfl

/-- Claim C9 counterexample: at brightness 0.5 the byte stored for the channel is
127 — truncation of 127.5 — while rounding 0.5·255 to the nearest integer
gives 128. -/
theorem c9_round_counterexample :
    lookupState
      (((LED.new 0).set_brightness sys0 (F.val (1/2))).2.2.ledState) 0 = some 127 ∧
    round ((1/2 : ℚ) * 255) = 128 := by
  have hg : guardOk (F.val (1/2)) = true := guardOk_val _ (by norm_num) (by norm_num)
  have hfl : (⌊(1/2 : ℚ) * 255⌋ : ℤ) = 127 := by
    rw [Int.floor_eq_iff]
    norm_num
  constructor
  · rw [set_brightness_ok (LED.new 0) sys0 (F.val (1/2)) hg rfl rfl]
    show lookupState (insertState sys0.ledState 0
      ((F.val (1/2)).mul (F.val ((255 : Nat) : ℚ))).toU8) 0 = some 127
    rw [lookupState_insert, if_pos rfl]
    have : ((F.val (1/2)).mul (F.val ((255 : Nat) : ℚ))).toU8 = 127 := by
      show (F.val ((1/2 : ℚ) * ((255 : Nat) : ℚ))).toU8 = 127
      rw [F.toU8]
      rw [if_neg (by push_cast; norm_num)]
      push_cast
      rw [hfl]
      rfl
    rw [this]
  · rw [show ((1/2 : ℚ) * 255) = (255 : ℚ)/2 by norm_num]
    rw [round_eq]
    norm_num

/-- Claim C9 amended: for every brightness q in [0.0, 1.0], the byte stored for the
channel is the truncation (floor, for nonnegative input) of q·255, not its
rounding to the nearest integer. -/
theorem c9_truncation_amended (led : LED) (sys : Sys) (q : ℚ)
    (hm : led.max_brightness = 255)
    (h0 : 0 ≤ q) (h1 : q ≤ 1)
    (he : sys.enableFail = false) (ho : sys.outputFail = false) :
    lookupState (led.set_brightness sys (F.val q)).2.2.ledState led.channel =
      some (Int.toNat ⌊q * 255⌋) := by
  rw [set_brightness_ok led sys (F.val q) (guardOk_val q h0 h1) he ho]
  show lookupState (insertState sys.ledState led.channel
      ((F.val q).mul (F.val (led.max_brightness : ℚ))).toU8) led.channel = _
  rw [lookupState_insert, if_pos rfl, hm]
  have hval : ((F.val q).mul (F.val ((255 : Nat) : ℚ))).toU8 = Int.toNat ⌊q * 255⌋ := by
    show (F.val (q * ((255 : Nat) : ℚ))).toU8 = Int.toNat ⌊q * 255⌋
    rw [F.toU8]
    have hcast : ((255 : Nat) : ℚ) = (255 : ℚ) := by norm_num
    rw [hcast, if_neg (not_lt.mpr (by positivity))]
    have hle : (⌊q * 255⌋ : ℤ) ≤ 255 := by
      have : q * 255 ≤ 255 := by nlinarith
      calc (⌊q * 255⌋ : ℤ) ≤ ⌊(255 : ℚ)⌋ := Int.floor_le_floor this
        _ = 255 := by norm_num
    have : Int.toNat ⌊q * 255⌋ ≤ 255 := by omega
    omega
  rw [hval]

/-- Witness for C9 amended at brightness 0.5: the stored byte is 127. -/
theorem c9_truncation_amended_witness :
    lookupState
      (((LED.new 6).set_brightness sys0 (F.val (1/2))).2.2.ledState) 6 = some 127 := by
  have h := c9_truncation_amended (LED.new 6) sys0 (1/2) rfl (by norm_num) (by norm_num)
    rfl rfl
  rw [show (LED.new 6).channel = 6 from rfl] at h
  rw [h]
  have hfl : (⌊(1/2 : ℚ) * 255⌋ : ℤ) = 127 := by
    rw [Int.floor_eq_iff]
    norm_num
  rw [hfl]
  rfl

/-- Claim C10: a NaN brightness passes the range validation (NaN is neither below
0.0 nor above 1.0 under `<`), so the call succeeds: the cached brightness
becomes NaN, the shared map stores byte 0 for the channel (Rust's `as u8` on
NaN), and the hardware flush is still issued. -/
theorem c10_nan_bypasses_validation (led : LED) (sys : Sys)
    (he : sys.enableFail = false) (ho : sys.outputFail = false) :
    (led.set_brightness sys F.nan).1 = Outcome.ok () ∧
    (led.set_brightness sys F.nan).2.1.brightness = F.nan ∧
    lookupState (led.set_brightness sys F.nan).2.2.ledState led.channel = some 0 ∧
    (led.set_brightness sys F.nan).2.2.log = sys.log ++
      [Transaction.enable (buildBuffer (insertState sys.ledState led.channel 0)).2,
       Transaction.output (buildBuffer (insertState sys.ledState led.channel 0)).1] := by
  rw [set_brightness_ok led sys F.nan guardOk_nan he ho]
  refine ⟨rfl, rfl, ?_, rfl⟩
  show lookupState (insertState sys.ledState led.channel
    (F.nan.mul (F.val (led.max_brightness : ℚ))).toU8) led.channel = some 0
  rw [lookupState_insert, if_pos rfl]
  rfl

/-- Witness for C10 on channel 4 of a fresh world. -/
theorem c10_nan_bypasses_validation_witness :
    ((LED.new 4).set_brightness sys0 F.nan).1 = Outcome.ok () ∧
    ((LED.new 4).set_brightness sys0 F.nan).2.1.brightness = F.nan ∧
    lookupState ((LED.new 4).set_brightness sys0 F.nan).2.2.ledState 4 = some 0 :=
  let h := c10_nan_bypasses_validation (LED.new 4) sys0 rfl rfl
  ⟨h.1, h.2.1, h.2.2.1⟩

/-! ## Toggle behavior (claim C5) -/

lemma eqb_val_zero (b : F) : b.eqb (F.val 0) = decide (b = F.val 0) := by
  cases b with
  | nan => simp [F.eqb]
  | val a => simp [F.eqb]

/-- One toggle on a healthy world: succeeds; the new cached brightness is 1.0
when the old one compared equal to 0.0 and 0.0 otherwise. -/
lemma toggle_state (led : LED) (sys : Sys) (he : sys.enableFail = false)
    (ho : sys.outputFail = false) :
    (led.toggle sys).1 = Outcome.ok () ∧
    (led.toggle sys).2.1 =
      ⟨led.channel, if led.brightness = F.val 0 then F.val 1 else F.val 0,
       led.max_brightness⟩ ∧
    (led.toggle sys).2.2.enableFail = false ∧
    (led.toggle sys).2.2.outputFail = false := by
  by_cases hz : led.brightness = F.val 0
  · have ht : led.toggle sys = led.on sys := by
      simp [LED.toggle, eqb_val_zero, hz]
    rw [ht, if_pos hz]
    exact set_brightness_result led sys (F.val 1) guardOk_one he ho
  · have ht : led.toggle sys = led.off sys := by
      simp [LED.toggle, eqb_val_zero, hz]
    rw [ht, if_neg hz]
    exact set_brightness_result led sys (F.val 0) guardOk_zero he ho

/-- Claim C5 amended: toggle turns the LED on when the cached value is 0.0 and off
otherwise; two successful toggles restore the original cached brightness
exactly when it was 0.0 or 1.0 — starting from 0.0 the pair ends at 0.0, and
starting from any nonzero brightness it ends at 1.0 (so from 0.5 the original
value is not restored). -/
theorem c5_double_toggle_amended (led : LED) (sys : Sys)
    (he : sys.enableFail = false) (ho : sys.outputFail = false) :
    (led.toggle sys).2.1.brightness =
      (if led.brightness = F.val 0 then F.val 1 else F.val 0) ∧
    ((led.toggle sys).2.1.toggle (led.toggle sys).2.2).2.1.brightness =
      (if led.brightness = F.val 0 then F.val 0 else F.val 1) := by
  obtain ⟨h1, h2, h3, h4⟩ := toggle_state led sys he ho
  obtain ⟨g1, g2, g3, g4⟩ := toggle_state (led.toggle sys).2.1 (led.toggle sys).2.2 h3 h4
  refine ⟨by rw [h2], ?_⟩
  rw [g2, h2]
  by_cases hz : led.brightness = F.val 0
  · simp [hz]
  · simp [hz]

/-- Witness for C5 amended: from brightness 0.0 two toggles end back at 0.0. -/
theorem c5_double_toggle_amended_witness :
    (((LED.new 7).toggle sys0).2.1.toggle ((LED.new 7).toggle sys0).2.2).2.1.brightness =
      F.val 0 := by
  have h := (c5_double_toggle_amended (LED.new 7) sys0 rfl rfl).2
  simpa [LED.new] using h

/-- Claim C5 counterexample: starting from cached brightness 0.5, both toggle calls
succeed and the final cached brightness is 1.0, which differs from the
original 0.5 — so toggle-twice does not restore the cached brightness. -/
theorem c5_double_toggle_counterexample :
    ((⟨0, F.val (1/2), 255⟩ : LED).toggle sys0).1 = Outcome.ok () ∧
    (((⟨0, F.val (1/2), 255⟩ : LED).toggle sys0).2.1.toggle
        ((⟨0, F.val (1/2), 255⟩ : LED).toggle sys0).2.2).1 = Outcome.ok () ∧
    (((⟨0, F.val (1/2), 255⟩ : LED).toggle sys0).2.1.toggle
        ((⟨0, F.val (1/2), 255⟩ : LED).toggle sys0).2.2).2.1.brightness = F.val 1 ∧
    F.val 1 ≠ F.val (1/2) := by
  have hz : (⟨0, F.val (1/2), 255⟩ : LED).brightness ≠ F.val 0 := by
    simp
  obtain ⟨h1, h2, h3, h4⟩ := toggle_state ⟨0, F.val (1/2), 255⟩ sys0 rfl rfl
  obtain ⟨g1, g2, g3, g4⟩ :=
    toggle_state ((⟨0, F.val (1/2), 255⟩ : LED).toggle sys0).2.1
      ((⟨0, F.val (1/2), 255⟩ : LED).toggle sys0).2.2 h3 h4
  refine ⟨h1, g1, ?_, ?_⟩
  · rw [g2, h2]
    simp [hz]
  · intro h
    rw [F.val.injEq] at h
    norm_num at h

/-! ## Analog input normalization (claim C3) -/

/-- Claim C3 counterexample: with the calibration maximum 25.85 and raw reading 26
(which exceeds 25.85), read returns 13312/64625 ≈ 0.206 — not a value greater
than 1.0, and not 26 / 25.85 — because the code divides `(raw / 10) * 2.048`
by `max_value`, not `raw` itself. -/
theorem c3_normalization_counterexample :
    ((AnalogInput.new none 0).read ⟨sys0, 26, false, false⟩).1 =
      Outcome.ok (F.val (13312/64625)) ∧
    ¬(1 < (13312/64625 : ℚ)) ∧
    (13312/64625 : ℚ) ≠ 26 / (2585/100) := by
  refine ⟨?_, by norm_num, by norm_num⟩
  show ((AnalogInput.new none 0).read ⟨sys0, 26, false, false⟩).1 = _
  simp only [AnalogInput.read, AnalogInput.new, F.div, F.mul]
  norm_num

/-- Claim C3 amended: read computes the normalized value as
`((raw / 10) * 2.048) / max_value` (the volts-scaled form), not `raw /
max_value`; raw = 0 still gives 0.0; the value is not clamped and, with no
indicator bound, is returned as-is even above 1.0; with an indicator bound, a
normalized value above 1.0 instead makes read fail, because the indicator's
brightness validation rejects it. -/
theorem c3_normalization_amended (a : AnalogInput) (sys : AdcSys) (q : ℚ)
    (hch : a.channel < 4) (hsel : sys.selectFail = false)
    (hrd : sys.readFail = false) (hmax : a.max_value = F.val q) :
    (a.led = none →
      (a.read sys).1 =
        Outcome.ok (F.val (((sys.raw : ℚ) / 10) * (2048/1000) / q)) ∧
      (a.read sys).2.1.value =
        F.val (((sys.raw : ℚ) / 10) * (2048/1000) / q)) ∧
    (∀ led, a.led = some led →
      1 < ((sys.raw : ℚ) / 10) * (2048/1000) / q →
      (a.read sys).1 =
        Outcome.err ("Failed to update LED: " ++
          "Brightness must be between 0.0 and 1.0")) := by
  have hch2 : ¬(4 ≤ a.channel) := not_le.mpr hch
  constructor
  · intro hnone
    simp [AnalogInput.read, hch2, hsel, hrd, hnone, hmax, F.div, F.mul]
  · intro led hsome hgt
    have herr := set_brightness_err led sys.ledSys
      (F.val (((sys.raw : ℚ) / 10) * (2048/1000) / q))
      (by simp [F.ltb, hgt])
    simp only [AnalogInput.read, hch2, if_false, hsel, hrd, Bool.false_eq_true,
      hsome, hmax, F.div, F.mul, herr]

/-- Witness for C3 amended: raw reading 200 with no indicator bound returns
the unclamped value 4096/2585 ≈ 1.585, which exceeds 1.0. -/
theorem c3_normalization_amended_witness :
    ((AnalogInput.new none 2).read ⟨sys0, 200, false, false⟩).1 =
      Outcome.ok (F.val ((((200 : Int) : ℚ) / 10) * (2048/1000) / (2585/100))) ∧
    1 < (((200 : Int) : ℚ) / 10) * (2048/1000) / (2585/100) :=
  ⟨((c3_normalization_amended (AnalogInput.new none 2) ⟨sys0, 200, false, false⟩
      (2585/100) (by decide) rfl rfl rfl).1 rfl).1,
   by norm_num⟩

/-! ## Digital output (claim C6) -/

/-- Claim C6 (code bug): with auto-light and a bound LED, `write` sets the indicator
to 1.0/0.0 before driving the pin; on success the pin is driven and the value
recorded. But when the indicator flush's transport fails, the call panics via
the unwrap inside `set_brightness` instead of returning the indicator error:
the physical pin and the stored value are indeed left unchanged, yet no error
value reaches the caller. -/
theorem c6_output_indicator_failure :
    (((⟨some (LED.new 3), true, false⟩ : DigitalOutput).write
        ⟨sys0, false, false⟩ true).1 = Outcome.ok () ∧
     ((⟨some (LED.new 3), true, false⟩ : DigitalOutput).write
        ⟨sys0, false, false⟩ true).2.2.pin = true ∧
     ((⟨some (LED.new 3), true, false⟩ : DigitalOutput).write
        ⟨sys0, false, false⟩ true).2.1.value = true ∧
     ((⟨some (LED.new 3), true, false⟩ : DigitalOutput).write
        ⟨sys0, false, false⟩ true).2.1.led = some ⟨3, F.val 1, 255⟩) ∧
    (((⟨some (LED.new 3), true, false⟩ : DigitalOutput).write
        ⟨⟨[], [], true, false⟩, false, false⟩ true).1 = Outcome.panicked ∧
     ((⟨some (LED.new 3), true, false⟩ : DigitalOutput).write
        ⟨⟨[], [], true, false⟩, false, false⟩ true).1.isErr = false ∧
     ((⟨some (LED.new 3), true, false⟩ : DigitalOutput).write
        ⟨⟨[], [], true, false⟩, false, false⟩ true).2.2.pin = false ∧
     ((⟨some (LED.new 3), true, false⟩ : DigitalOutput).write
        ⟨⟨[], [], true, false⟩, false, false⟩ true).2.1.value = false ∧
     ((⟨some (LED.new 3), true, false⟩ : DigitalOutput).write
        ⟨⟨[], [], true, false⟩, false, false⟩ true).2.2.ledSys.log = []) := by
  have hok := set_brightness_ok (LED.new 3) sys0 (F.val 1) guardOk_one rfl rfl
  have hpanic := set_brightness_panic_enable (LED.new 3) ⟨[], [], true, false⟩
    (F.val 1) guardOk_one rfl
  constructor
  · simp only [DigitalOutput.write, LED.set, hok, DigitalOutput.writePin]
    exact ⟨rfl, rfl, rfl, rfl⟩
  · simp only [DigitalOutput.write, LED.set, hpanic]
    exact ⟨rfl, rfl, rfl, rfl, rfl⟩

/-! ## Digital input (claim C7) -/

/-- Claim C7 counterexample: with auto-light enabled, an LED bound and a healthy
pin, a transport failure during the indicator flush makes `read` panic (the
unwrap inside `set_brightness`) — it does not fail the call with an error
value, contrary to the claim. -/
theorem c7_input_indicator_counterexample :
    ((⟨some (LED.new 2), true⟩ : DigitalInput).read
        ⟨⟨[], [], true, false⟩, true, false⟩).1 = Outcome.panicked ∧
    ((⟨some (LED.new 2), true⟩ : DigitalInput).read
        ⟨⟨[], [], true, false⟩, true, false⟩).1.isErr = false := by
  have hpanic := set_brightness_panic_enable (LED.new 2) ⟨[], [], true, false⟩
    (F.val 1) guardOk_one rfl
  simp only [DigitalInput.read, hpanic]
  exact ⟨rfl, rfl⟩

/-- Claim C7 amended: a failed physical pin read makes `read` return an error before
the indicator is touched; after a successful pin read the indicator is set to
1.0 when the value is true and 0.0 when false; but a failure of that indicator
update does not fail the `read` call with an error: a transport failure during
the indicator flush panics the call, and an indicator error return would be
printed and swallowed with `read` still returning the pin value. -/
theorem c7_input_indicator_amended (d : DigitalInput) (sys : PinSys) (led : LED)
    (hl : d.led = some led) (ha : d.auto_light = true) :
    (sys.pinFail = true →
      (d.read sys).1 = Outcome.err "pin read failed" ∧ (d.read sys).2.2 = sys) ∧
    (sys.pinFail = false → sys.ledSys.enableFail = false →
      sys.ledSys.outputFail = false →
      (d.read sys).1 = Outcome.ok sys.pin ∧
      (d.read sys).2.1.led =
        some ⟨led.channel, F.val (if sys.pin then 1 else 0), led.max_brightness⟩) ∧
    (sys.pinFail = false → sys.ledSys.enableFail = true →
      (d.read sys).1 = Outcome.panicked) := by
  refine ⟨?_, ?_, ?_⟩
  · intro hp
    simp [DigitalInput.read, hp]
  · intro hp he ho
    have hok := set_brightness_ok led sys.ledSys
      (F.val (if sys.pin then 1 else 0))
      (by cases sys.pin <;> simp [guardOk_one, guardOk_zero]) he ho
    simp only [DigitalInput.read, hp, Bool.false_eq_true, if_false, ha, hl, hok]
    exact ⟨trivial, trivial⟩
  · intro hp he
    have hpanic := set_brightness_panic_enable led sys.ledSys
      (F.val (if sys.pin then 1 else 0))
      (by cases sys.pin <;> simp [guardOk_one, guardOk_zero]) he
    simp only [DigitalInput.read, hp, Bool.false_eq_true, if_false, ha, hl, hpanic]

/-- Witness for C7 amended: pin high on a healthy world gives Ok(true) and the
indicator at 1.0. -/
theorem c7_input_indicator_amended_witness :
    ((⟨some (LED.new 2), true⟩ : DigitalInput).read ⟨sys0, true, false⟩).1 =
      Outcome.ok true ∧
    ((⟨some (LED.new 2), true⟩ : DigitalInput).read ⟨sys0, true, false⟩).2.1.led =
      some ⟨2, F.val 1, 255⟩ :=
  (c7_input_indicator_amended ⟨some (LED.new 2), true⟩ ⟨sys0, true, false⟩
    (LED.new 2) rfl rfl).2.1 rfl rfl rfl

/-! ## Relay (claim C8) -/

/-- Claim C8 (code bug): with auto-light, `write(open)` sets the NO indicator to
1.0 and the NC indicator to 0.0 when open (the inverse otherwise), drives the
pin high iff open, records the value, and fails only when the pin write fails.
The `let _ =` in the source ignores returned indicator errors as the claim
says — but a transport failure inside the indicator flush panics in
`set_brightness` before the `let _ =` can discard anything, so the physical
pin is never driven, contrary to the claim. -/
theorem c8_relay_indicator_failure :
    (((⟨some (LED.new 0), some (LED.new 1), true, false⟩ : Relay).write
        ⟨sys0, false, false⟩ true).1 = Outcome.ok () ∧
     ((⟨some (LED.new 0), some (LED.new 1), true, false⟩ : Relay).write
        ⟨sys0, false, false⟩ true).2.2.pin = true ∧
     ((⟨some (LED.new 0), some (LED.new 1), true, false⟩ : Relay).write
        ⟨sys0, false, false⟩ true).2.1.value = true ∧
     ((⟨some (LED.new 0), some (LED.new 1), true, false⟩ : Relay).write
        ⟨sys0, false, false⟩ true).2.1.no_led = some ⟨0, F.val 1, 255⟩ ∧
     ((⟨some (LED.new 0), some (LED.new 1), true, false⟩ : Relay).write
        ⟨sys0, false, false⟩ true).2.1.nc_led = some ⟨1, F.val 0, 255⟩) ∧
    (((⟨some (LED.new 0), some (LED.new 1), true, true⟩ : Relay).write
        ⟨sys0, true, false⟩ false).1 = Outcome.ok () ∧
     ((⟨some (LED.new 0), some (LED.new 1), true, true⟩ : Relay).write
        ⟨sys0, true, false⟩ false).2.2.pin = false ∧
     ((⟨some (LED.new 0), some (LED.new 1), true, true⟩ : Relay).write
        ⟨sys0, true, false⟩ false).2.1.value = false ∧
     ((⟨some (LED.new 0), some (LED.new 1), true, true⟩ : Relay).write
        ⟨sys0, true, false⟩ false).2.1.no_led = some ⟨0, F.val 0, 255⟩ ∧
     ((⟨some (LED.new 0), some (LED.new 1), true, true⟩ : Relay).write
        ⟨sys0, true, false⟩ false).2.1.nc_led = some ⟨1, F.val 1, 255⟩) ∧
    (((⟨some (LED.new 0), some (LED.new 1), true, false⟩ : Relay).write
        ⟨sys0, false, true⟩ true).1 = Outcome.err "Unable to set value" ∧
     ((⟨some (LED.new 0), some (LED.new 1), true, false⟩ : Relay).write
        ⟨sys0, false, true⟩ true).2.1.value = false) ∧
    (((⟨some (LED.new 0), some (LED.new 1), true, false⟩ : Relay).write
        ⟨⟨[], [], true, false⟩, false, false⟩ true).1 = Outcome.panicked ∧
     ((⟨some (LED.new 0), some (LED.new 1), true, false⟩ : Relay).write
        ⟨⟨[], [], true, false⟩, false, false⟩ true).2.2.pin = false ∧
     ((⟨some (LED.new 0), some (LED.new 1), true, false⟩ : Relay).write
        ⟨⟨[], [], true, false⟩, false, false⟩ true).2.1.value = false) := by
  refine ⟨?_, ?_, ?_, ?_⟩
  · have h1 := set_brightness_ok (LED.new 0) sys0 (F.val 1) guardOk_one rfl rfl
    have h2 := set_brightness_ok ⟨0, F.val 1, 255⟩
      ((LED.new 0).set_brightness sys0 (F.val 1)).2.2 (F.val 0) guardOk_zero
      (by rw [h1]) (by rw [h1])
    simp only [Relay.write, setOptLED, LED.set, h1, h2, Relay.writePin]
    exact ⟨rfl, rfl, rfl, rfl, rfl⟩
  · have h1 := set_brightness_ok (LED.new 0) sys0 (F.val 0) guardOk_zero rfl rfl
    have h2 := set_brightness_ok ⟨0, F.val 0, 255⟩
      ((LED.new 0).set_brightness sys0 (F.val 0)).2.2 (F.val 1) guardOk_one
      (by rw [h1]) (by rw [h1])
    simp only [Relay.write, setOptLED, LED.set, h1, h2, Relay.writePin]
    exact ⟨rfl, rfl, rfl, rfl, rfl⟩
  · have h1 := set_brightness_ok (LED.new 0) sys0 (F.val 1) guardOk_one rfl rfl
    have h2 := set_brightness_ok ⟨0, F.val 1, 255⟩
      ((LED.new 0).set_brightness sys0 (F.val 1)).2.2 (F.val 0) guardOk_zero
      (by rw [h1]) (by rw [h1])
    simp only [Relay.write, setOptLED, LED.set, h1, h2, Relay.writePin]
    exact ⟨rfl, rfl⟩
  · have h1 := set_brightness_panic_enable (LED.new 0) ⟨[], [], true, false⟩
      (F.val 1) guardOk_one rfl
    simp only [Relay.write, setOptLED, LED.set, h1]
    exact ⟨rfl, rfl, rfl⟩

end AutomationHat
